import Mathlib

/-!
Verification of the PAMMEDSIL k-medoids implementation (src/src/pammedsil.rs).

Distances and losses are modelled as rationals (the Rust code is generic over a
numeric distance type N and a float loss type L; the `From<N> for L` conversion
becomes the identity).  Vectors become lists, `&mut` parameters become extra
components of the return value, and the `while` loop of the SWAP driver becomes
structural recursion on the remaining iteration budget.

The functions `do_swap`, `initial_assignment` (crate::fastermsc) and
`choose_medoid_within_partition` (crate::util) are used by this file's code but
their sources are not part of the repository snapshot; they are modelled from
the specification and marked as such in their doc comments.
-/

/-- The `u32::MAX` sentinel used for unassigned medoid-slot indices. -/
def u32MAX : ℕ := 4294967295

/-- The `usize::MAX` sentinel used for "no best candidate found". -/
def usizeMAX : ℕ := 18446744073709551615

/-- util::DistancePair — a medoid-slot index together with the distance to it. -/
structure DistancePair where
  i : ℕ
  d : ℚ
deriving DecidableEq, Repr

instance : Inhabited DistancePair := ⟨⟨0, 0⟩⟩

/-- util::Reco — per-object record of the three closest medoids. -/
structure Reco where
  near : DistancePair
  seco : DistancePair
  third : DistancePair
deriving DecidableEq, Repr

instance : Inhabited Reco := ⟨⟨default, default, default⟩⟩

/-- The ArrayAdapter abstraction: a square pairwise dissimilarity matrix with
`len` (field `n`), `get`, and `is_square` (field `isSquare`). -/
structure DissMatrix where
  n : ℕ
  get : ℕ → ℕ → ℚ
  isSquare : Bool

/-- pammedsil.rs line 8-15, fn `_loss`: the distance-ratio loss primitive.
Returns `a / b` unless one of the arguments is zero, in which case it
returns zero. -/
def _loss (a b : ℚ) : ℚ :=
  if a = 0 ∨ b = 0 then 0 else a / b

/-- Sum over all objects of `_loss near.d seco.d` — the aggregate loss
accumulator as recomputed at pammedsil.rs line 331 (and by the external
assignment primitives). -/
def sumRatios (data : List Reco) : ℚ :=
  (data.map (fun r => _loss r.near.d r.seco.d)).sum

/-- Sorted insertion of a (slot, distance) pair into a Reco, keeping the three
closest; unassigned slots (index `u32MAX`) count as infinitely far.  This is the
per-slot update underlying the assignment primitives (and mirrors the BUILD
update at pammedsil.rs lines 313-330). -/
def insert3 (rec : Reco) (s : ℕ) (d : ℚ) : Reco :=
  if rec.near.i = u32MAX ∨ d < rec.near.d then ⟨⟨s, d⟩, rec.near, rec.seco⟩
  else if rec.seco.i = u32MAX ∨ d < rec.seco.d then ⟨rec.near, ⟨s, d⟩, rec.seco⟩
  else if rec.third.i = u32MAX ∨ d < rec.third.d then ⟨rec.near, rec.seco, ⟨s, d⟩⟩
  else rec

/-- An all-unassigned record. -/
def emptyReco : Reco := ⟨⟨u32MAX, 0⟩, ⟨u32MAX, 0⟩, ⟨u32MAX, 0⟩⟩

/-- Modelled from the spec: the record of object `o` for the medoid list `med`
— its three closest medoid slots, ties resolved in favour of the earlier slot. -/
def assignReco (mat : DissMatrix) (med : List ℕ) (o : ℕ) : Reco :=
  (med.enum.foldl (fun r p => insert3 r p.1 (mat.get o p.2)) emptyReco)

/-- Modelled from the spec: fastermsc::initial_assignment (not under src/) —
"a generic initial assignment routine that computes nearest/second/third medoid
records for a user-supplied initial medoid list", returning the aggregate loss
accumulator together with the records. -/
def initial_assignment (mat : DissMatrix) (med : List ℕ) : ℚ × List Reco :=
  let data := (List.range mat.n).map (assignReco mat med)
  (sumRatios data, data)

/-- Modelled from the spec: fastermsc::do_swap (not under src/) — the swap
execution primitive: "given a chosen (medoid-slot, new-medoid) pair, updates
the medoid list and recomputes every object's nearest/second/third medoid
records, returning the new aggregate loss".  The two `&mut` arguments become
the first two components of the result. -/
def do_swap (mat : DissMatrix) (med : List ℕ) (_data : List Reco) (b j : ℕ) :
    List ℕ × List Reco × ℚ :=
  let med' := med.set b j
  let r := initial_assignment mat med'
  (med', r.2, r.1)

/-- Modelled from the spec: util::choose_medoid_within_partition (not under
src/) — the k == 1 short-circuit helper: among the objects assigned to
partition `m`, pick the one minimizing the total distance to all objects of
that partition (first-seen minimum), store it in slot `m` of the medoid list,
and return whether the medoid changed together with that minimal total
distance as the loss ("the single medoid minimizes total distance to all other
objects — exact PAM build-seed property"). -/
def choose_medoid_within_partition (mat : DissMatrix) (assi : List ℕ) (med : List ℕ)
    (m : ℕ) : Bool × ℚ × List ℕ :=
  let cand := (List.range mat.n).filter (fun o => assi.getD o 0 = m)
  let sumTo := fun o => (cand.map (fun j => if j = o then 0 else mat.get j o)).sum
  let best := cand.foldl
    (fun b o =>
      match b with
      | none => some (sumTo o, o)
      | some p => if sumTo o < p.1 then some (sumTo o, o) else b)
    none
  match best with
  | none => (false, 0, med)
  | some p => if p.2 = med.getD m 0 then (false, p.1, med) else (true, p.1, med.set m p.2)

/-- pammedsil.rs lines 180-206: the contribution of one other object `o` (with
record `reco`) to the accumulated loss change when object `j` replaces medoid
slot `m` — general variant, fn `find_best_swap_pammedsil`. -/
def deltaGeneral (mat : DissMatrix) (m j o : ℕ) (reco : Reco) : ℚ :=
  let doj := mat.get o j
  if reco.near.i = m then
    if doj < reco.seco.d then
      _loss reco.near.d reco.seco.d - _loss doj reco.seco.d
    else if doj < reco.third.d then
      _loss reco.near.d reco.seco.d - _loss reco.seco.d doj
    else
      _loss reco.near.d reco.seco.d - _loss reco.seco.d reco.third.d
  else if reco.seco.i = m then
    if doj < reco.near.d then
      _loss reco.near.d reco.seco.d - _loss doj reco.near.d
    else if doj < reco.third.d then
      _loss reco.near.d reco.seco.d - _loss reco.near.d doj
    else
      _loss reco.near.d reco.seco.d - _loss reco.near.d reco.third.d
  else
    if doj < reco.near.d then
      _loss reco.near.d reco.seco.d - _loss doj reco.near.d
    else if doj < reco.seco.d then
      _loss reco.near.d reco.seco.d - _loss reco.near.d doj
    else 0

/-- pammedsil.rs lines 231-253: the same contribution in the k == 2 variant,
fn `find_best_swap_pammedsil_k2` (no `third`-distance fallback branches). -/
def deltaK2 (mat : DissMatrix) (m j o : ℕ) (reco : Reco) : ℚ :=
  let doj := mat.get o j
  if reco.near.i = m then
    if doj < reco.seco.d then
      _loss reco.near.d reco.seco.d - _loss doj reco.seco.d
    else
      _loss reco.near.d reco.seco.d - _loss reco.seco.d doj
  else if reco.seco.i = m then
    if doj < reco.near.d then
      _loss reco.near.d reco.seco.d - _loss doj reco.near.d
    else
      _loss reco.near.d reco.seco.d - _loss reco.near.d doj
  else
    if doj < reco.near.d then
      _loss reco.near.d reco.seco.d - _loss doj reco.near.d
    else if doj < reco.seco.d then
      _loss reco.near.d reco.seco.d - _loss reco.near.d doj
    else 0

/-- The inner `for (o, reco) in data.iter().enumerate()` loop (skipping
`o == j`) of both swap evaluators, accumulating with the given per-object
contribution; the first ℕ argument is the index of the head of the remaining
list, the second is the skipped index `j`. -/
def accAux (delta : ℕ → Reco → ℚ) : ℕ → ℕ → List Reco → ℚ → ℚ
  | _, _, [], acc => acc
  | o, j, reco :: rest, acc =>
      accAux delta (o + 1) j rest (if o = j then acc else acc + delta o reco)

/-- pammedsil.rs lines 166-213, fn `find_best_swap_pammedsil`: best swap for a
non-medoid object `j`, general variant.  For each medoid slot `m` the inner
accumulator starts at the candidate's own seed term
`_loss(recj.near.d, recj.seco.d)`; the best (strictly greater) accumulated
change and its slot are tracked, starting from `(0, usize::MAX)`. -/
def find_best_swap_pammedsil (mat : DissMatrix) (med : List ℕ) (data : List Reco)
    (j : ℕ) : ℚ × ℕ :=
  let recj := data.getD j default
  (List.range med.length).foldl
    (fun best m =>
      let acc := accAux (deltaGeneral mat m j) 0 j data (_loss recj.near.d recj.seco.d)
      if best.1 < acc then (acc, m) else best)
    (0, usizeMAX)

/-- pammedsil.rs lines 217-260, fn `find_best_swap_pammedsil_k2`: best swap for
a non-medoid object `j`, k == 2 variant. -/
def find_best_swap_pammedsil_k2 (mat : DissMatrix) (med : List ℕ) (data : List Reco)
    (j : ℕ) : ℚ × ℕ :=
  let recj := data.getD j default
  (List.range med.length).foldl
    (fun best m =>
      let acc := accAux (deltaK2 mat m j) 0 j data (_loss recj.near.d recj.seco.d)
      if best.1 < acc then (acc, m) else best)
    (0, usizeMAX)

/-- pammedsil.rs lines 137-141: the evaluator dispatch — the k == 2 variant
when there are exactly two medoids, the general variant otherwise. -/
def evalSwap (mat : DissMatrix) (med : List ℕ) (data : List Reco) (j : ℕ) : ℚ × ℕ :=
  if med.length = 2 then find_best_swap_pammedsil_k2 mat med data j
  else find_best_swap_pammedsil mat med data j

/-- Whether the scan at pammedsil.rs lines 133-136 skips object `j`:
`j == med[data[j].near.i as usize]` ("this already is a medoid"). -/
def scanSkips (med : List ℕ) (data : List Reco) (j : ℕ) : Prop :=
  j = med.getD (data.getD j default).near.i 0

instance (med : List ℕ) (data : List Reco) (j : ℕ) : Decidable (scanSkips med data j) :=
  inferInstanceAs (Decidable (_ = _))

/-- One step of the scan at pammedsil.rs lines 133-146: skip medoids, evaluate
the best swap for `j`, and replace the tracked best `(change, slot, object)`
only on a strictly greater change. -/
def scanStep (mat : DissMatrix) (med : List ℕ) (data : List Reco)
    (best : ℚ × ℕ × ℕ) (j : ℕ) : ℚ × ℕ × ℕ :=
  if scanSkips med data j then best
  else
    let cb := evalSwap mat med data j
    if cb.1 ≤ best.1 then best
    else (cb.1, cb.2, j)

/-- pammedsil.rs lines 132-146: the full scan over the first `m` objects,
starting from `best = (L::zero(), k, usize::MAX)`. -/
def scanAux (mat : DissMatrix) (med : List ℕ) (data : List Reco) (m : ℕ) : ℚ × ℕ × ℕ :=
  (List.range m).foldl (scanStep mat med data) (0, med.length, usizeMAX)

/-- The scan over all `n` objects. -/
def scanBest (mat : DissMatrix) (med : List ℕ) (data : List Reco) : ℚ × ℕ × ℕ :=
  scanAux mat med data mat.n

/-- The mutable locals of the SWAP loop: the two `&mut` arguments (medoid list
and records), the loss accumulator, and the iteration and swap counters. -/
structure OptState where
  med : List ℕ
  data : List Reco
  loss : ℚ
  iter : ℕ
  swaps : ℕ
deriving DecidableEq, Repr

/-- The interface of the external swap-execution primitive (spec §6):
`apply_swap(matrix, medoid_list, records, slot, new_object) -> new_loss`,
mutating the medoid list and the records (returned as the first two
components). -/
def SwapPrim : Type :=
  DissMatrix → List ℕ → List Reco → ℕ → ℕ → List ℕ × List Reco × ℚ

/-- pammedsil.rs lines 130-158: the `while iter < maxiter` SWAP loop, as
structural recursion on the remaining iteration budget, parametrized by the
external swap-execution primitive `f`.  Each loop entry increments `iter`;
a swap is counted *before* the instability guard `newloss >= loss` is
checked, and on a guard trip the loop breaks with the loss accumulator not
updated (while the medoid list and records keep the executed swap). -/
def optLoop (f : SwapPrim) (mat : DissMatrix) : ℕ → OptState → OptState
  | 0, s => s
  | rem + 1, s =>
    let best := scanBest mat s.med s.data
    if 0 < best.1 then
      let r := f mat s.med s.data best.2.1 best.2.2
      if s.loss ≤ r.2.2 then ⟨r.1, r.2.1, s.loss, s.iter + 1, s.swaps + 1⟩
      else optLoop f mat rem ⟨r.1, r.2.1, r.2.2, s.iter + 1, s.swaps + 1⟩
    else ⟨s.med, s.data, s.loss, s.iter + 1, s.swaps⟩

/-- The losses reported by the swap primitive for the successive counted swaps
of the loop (ghost companion of `optLoop`, following its exact branching). -/
def lossTrace (f : SwapPrim) (mat : DissMatrix) : ℕ → List ℕ → List Reco → ℚ → List ℚ
  | 0, _, _, _ => []
  | rem + 1, med, data, loss =>
    let best := scanBest mat med data
    if 0 < best.1 then
      let r := f mat med data best.2.1 best.2.2
      if loss ≤ r.2.2 then [r.2.2]
      else r.2.2 :: lossTrace f mat rem r.1 r.2.1 r.2.2
    else []

/-- The result of the optimizer: the returned tuple
`(loss, assignment, n_iter, n_swap)` together with the final contents of the
two `&mut` arguments (medoid list and records). -/
structure OptResult where
  loss : ℚ
  assi : List ℕ
  iter : ℕ
  swaps : ℕ
  med : List ℕ
  data : List Reco
deriving DecidableEq, Repr

/-- pammedsil.rs lines 110-162, fn `pammedsil_optimize`, parametrized by the
external swap-execution primitive: the k == 1 short-circuit (lines 123-127,
returning the loss of `choose_medoid_within_partition` untransformed), or the
SWAP loop followed by the assignment extraction and the final loss transform
`L::one() - loss / n` (lines 159-161). -/
def pammedsil_optimize_gen (f : SwapPrim) (mat : DissMatrix) (med : List ℕ)
    (data : List Reco) (maxiter : ℕ) (loss : ℚ) : OptResult :=
  if med.length = 1 then
    let assi := List.replicate mat.n 0
    let r := choose_medoid_within_partition mat assi med 0
    ⟨r.2.1, assi, 1, if r.1 then 1 else 0, r.2.2, data⟩
  else
    let s := optLoop f mat maxiter ⟨med, data, loss, 0, 0⟩
    ⟨1 - s.loss / (mat.n : ℚ), s.data.map (fun x => x.near.i), s.iter, s.swaps, s.med, s.data⟩

/-- fn `pammedsil_optimize` linked against the (spec-modelled) swap-execution
primitive `do_swap`. -/
def pammedsil_optimize (mat : DissMatrix) (med : List ℕ) (data : List Reco)
    (maxiter : ℕ) (loss : ℚ) : OptResult :=
  pammedsil_optimize_gen do_swap mat med data maxiter loss

/-- pammedsil.rs lines 49-61, fn `pammedsil_swap` (parametrized by the swap
primitive): initial assignment for the caller-supplied medoids, then the SWAP
driver.  The function performs no precondition checks of its own. -/
def pammedsil_swap_gen (f : SwapPrim) (mat : DissMatrix) (med : List ℕ)
    (maxiter : ℕ) : OptResult :=
  let r := initial_assignment mat med
  pammedsil_optimize_gen f mat med r.2 maxiter r.1

/-- fn `pammedsil_swap` linked against the (spec-modelled) `do_swap`. -/
def pammedsil_swap (mat : DissMatrix) (med : List ℕ) (maxiter : ℕ) : OptResult :=
  pammedsil_swap_gen do_swap mat med maxiter

/-- pammedsil.rs lines 276-287: the first-medoid scan of BUILD — for every
object `i` the total distance to all other objects, tracking the first-seen
minimum (the `i == 0 ||` disjunct initializes the running best); the running
best starts at `(L::zero(), k)`. -/
def buildFirst (mat : DissMatrix) (k : ℕ) : ℚ × ℕ :=
  (List.range mat.n).foldl
    (fun best i =>
      let sum := (List.range mat.n).foldl
        (fun s j => if j ≠ i then s + mat.get j i else s) 0
      if i = 0 ∨ sum < best.1 then (sum, i) else best)
    (0, k)

/-- pammedsil.rs line 291: the records right after the first medoid `c` is
chosen — `near` points at slot 0 with distance `mat.get(j, c)`; `seco` and
`third` unassigned. -/
def buildInitData (mat : DissMatrix) (c : ℕ) : List Reco :=
  (List.range mat.n).map (fun j => ⟨⟨0, mat.get j c⟩, ⟨u32MAX, 0⟩, ⟨u32MAX, 0⟩⟩)

/-- pammedsil.rs lines 297-305: the hypothetical marginal-loss sum of adding
object `i` as a medoid — seeded with `-data[i].near.d`, accumulating
`d(j,i) - data[j].near.d` over the objects `j ≠ i` whose nearest distance
would improve. -/
def buildCandSum (mat : DissMatrix) (data : List Reco) (i : ℕ) : ℚ :=
  (List.range mat.n).foldl
    (fun sum j =>
      if j ≠ i then
        if mat.get j i < (data.getD j default).near.d then
          sum + (mat.get j i - (data.getD j default).near.d)
        else sum
      else sum)
    (-(data.getD i default).near.d)

/-- pammedsil.rs lines 295-309: the candidate scan of one later BUILD step.
`data.iter().enumerate().skip(1)` scans the indices 1, …, n−1 (object 0 is
never scanned and the retained `i == 0 ||` test can no longer fire); the
running best starts at `(L::zero(), k)` and is replaced on a strictly
smaller sum. -/
def buildScan (mat : DissMatrix) (data : List Reco) (k : ℕ) : ℚ × ℕ :=
  (List.range' 1 (mat.n - 1)).foldl
    (fun best i =>
      let sum := buildCandSum mat data i
      if i = 0 ∨ sum < best.1 then (sum, i) else best)
    (0, k)

/-- pammedsil.rs lines 313-330: the record update when object `bi` is accepted
as the medoid of slot `l`, applied to the record of object `j`. -/
def buildUpdate (mat : DissMatrix) (l bi j : ℕ) (rec : Reco) : Reco :=
  if j = bi then ⟨⟨l, 0⟩, rec.near, rec.seco⟩
  else
    let dj := mat.get j bi
    if dj < rec.near.d then ⟨⟨l, dj⟩, rec.near, rec.seco⟩
    else if rec.seco.i = u32MAX ∨ dj < rec.seco.d then ⟨rec.near, ⟨l, dj⟩, rec.seco⟩
    else if rec.third.i = u32MAX ∨ dj < rec.third.d then ⟨rec.near, rec.seco, ⟨l, dj⟩⟩
    else rec

/-- The record update applied to every object. -/
def buildStepData (mat : DissMatrix) (l bi : ℕ) (data : List Reco) : List Reco :=
  (List.range data.length).map (fun j => buildUpdate mat l bi j (data.getD j default))

/-- pammedsil.rs lines 294-334: the `for l in 1..k` loop of BUILD, as recursion
on the number of remaining slots.  The current slot index `l` equals the number
of medoids chosen so far.  If no scanned candidate has a strictly negative sum
(`best.0 >= L::zero()`), the loop breaks; otherwise the records are updated,
the loss accumulator is recomputed as the sum of `_loss(near.d, seco.d)`, and
the chosen candidate is appended. -/
def buildAux (mat : DissMatrix) (k : ℕ) : ℕ → List ℕ → List Reco → ℚ → List ℕ × List Reco × ℚ
  | 0, meds, data, loss => (meds, data, loss)
  | rem + 1, meds, data, loss =>
    let best := buildScan mat data k
    if 0 ≤ best.1 then (meds, data, loss)
    else
      let data' := buildStepData mat meds.length best.2 data
      buildAux mat k rem (meds ++ [best.2]) data' (sumRatios data')

/-- pammedsil.rs lines 263-336, fn pammedsil_build_initialize: the BUILD
phase.  Returns the medoid list and records (the `&mut` arguments) together
with the loss accumulator; note that until a second medoid is accepted the
accumulator holds the first phase's total-distance sum, not a ratio sum. -/
def pammedsil_build_initialize (mat : DissMatrix) (k : ℕ) : List ℕ × List Reco × ℚ :=
  let bf := buildFirst mat k
  buildAux mat k (k - 1) [bf.2] (buildInitData mat bf.2) bf.1

/-- pammedsil.rs lines 91-107, fn `pammedsil` (parametrized by the swap
primitive): the four `assert!` preconditions of lines 98-101 modelled as an
`Option` guard (`none` = panic, no partial result), then BUILD followed by the
SWAP driver. -/
def pammedsil_gen (f : SwapPrim) (mat : DissMatrix) (k maxiter : ℕ) : Option OptResult :=
  if mat.isSquare = true ∧ mat.n ≤ u32MAX ∧ (0 < k ∧ k < u32MAX) ∧ k ≤ mat.n then
    let b := pammedsil_build_initialize mat k
    some (pammedsil_optimize_gen f mat b.1 b.2.1 maxiter b.2.2)
  else none

/-- fn `pammedsil` linked against the (spec-modelled) `do_swap`. -/
def pammedsil (mat : DissMatrix) (k maxiter : ℕ) : Option OptResult :=
  pammedsil_gen do_swap mat k maxiter

/-! Concrete instances used for witnesses and counterexamples. -/

/-- The 5-object test matrix of the repository's unit tests:
`LowerTriangle { n: 5, data: vec![1, 2, 3, 4, 5, 6, 7, 8, 9, 1] }`
(row-major lower triangle). -/
def mat5 : DissMatrix :=
  ⟨5, fun i j =>
    match i, j with
    | 0, 1 => 1 | 1, 0 => 1
    | 0, 2 => 2 | 2, 0 => 2
    | 1, 2 => 3 | 2, 1 => 3
    | 0, 3 => 4 | 3, 0 => 4
    | 1, 3 => 5 | 3, 1 => 5
    | 2, 3 => 6 | 3, 2 => 6
    | 0, 4 => 7 | 4, 0 => 7
    | 1, 4 => 8 | 4, 1 => 8
    | 2, 4 => 9 | 4, 2 => 9
    | 3, 4 => 1 | 4, 3 => 1
    | _, _ => 0, true⟩

/-- A 3-object matrix with d(0,1)=4, d(0,2)=5, d(1,2)=1. -/
def matC : DissMatrix :=
  ⟨3, fun i j =>
    match i, j with
    | 0, 1 => 4 | 1, 0 => 4
    | 0, 2 => 5 | 2, 0 => 5
    | 1, 2 => 1 | 2, 1 => 1
    | _, _ => 0, true⟩

/-- A 3-object matrix with d(0,1)=5, d(0,2)=3, d(1,2)=1. -/
def mat3 : DissMatrix :=
  ⟨3, fun i j =>
    match i, j with
    | 0, 1 => 5 | 1, 0 => 5
    | 0, 2 => 3 | 2, 0 => 3
    | 1, 2 => 1 | 2, 1 => 1
    | _, _ => 0, true⟩

/-- A 2-object matrix with d(0,1)=2. -/
def mat2 : DissMatrix :=
  ⟨2, fun i j => match i, j with | 0, 1 => 2 | 1, 0 => 2 | _, _ => 0, true⟩

/-- A 2-object matrix in which all dissimilarities are zero (duplicate objects). -/
def matZ : DissMatrix := ⟨2, fun _ _ => 0, true⟩

/-- A square matrix with `u32::MAX` rows (all distances zero). -/
def matBig : DissMatrix := ⟨u32MAX, fun _ _ => 0, true⟩

/-- A swap-execution primitive conforming to the spec §6 interface (it updates
the medoid list and the records exactly like `do_swap`) whose *reported*
aggregate loss has drifted upward by 2 — a model of the floating-point drift
of the incremental-update math that the driver's instability guard exists
for. -/
def do_swap_drift2 : SwapPrim := fun mat med data b j =>
  let r := do_swap mat med data b j
  (r.1, r.2.1, r.2.2 + 2)

/-- Records with every `third` distance replaced by a bound `B` — the
"unassigned slots are treated as infinitely far" reading of the records when
`B` exceeds all relevant distances. -/
def capThird (B : ℚ) (data : List Reco) : List Reco :=
  data.map (fun r => ⟨r.near, r.seco, ⟨r.third.i, B⟩⟩)

/-- The SWAP-loop entry state for medoids [0, 1, 2] on `mat5` (the state
`pammedsil_swap` builds before entering the driver loop). -/
def cexState : OptState :=
  ⟨[0, 1, 2], (initial_assignment mat5 [0, 1, 2]).2, (initial_assignment mat5 [0, 1, 2]).1, 0, 0⟩

/-! Validation: the model reproduces the repository's three unit tests
(test_pammedsil, testpammedsil_simple, testpammedsil_simple2) exactly,
including the spec-modelled external primitives:
0.9047619047619048 = 19/21 and 0.8805555555555555 = 317/360. -/

/-- The model agrees with the unit test `test_pammedsil`. -/
theorem rust_test_pammedsil_agreement :
    (pammedsil mat5 3 10).map (fun r => (r.loss, r.assi, r.med, r.iter, r.swaps)) =
      some (19/21, [0, 0, 2, 1, 1], [0, 3, 2], 1, 0) := by with_unfolding_all decide

/-- The model agrees with the unit test `testpammedsil_simple`. -/
theorem rust_test_simple_agreement :
    (fun r => (r.loss, r.assi, r.med, r.iter, r.swaps)) (pammedsil_swap mat5 [0, 1, 2] 10) =
      (19/21, [0, 0, 2, 1, 1], [0, 3, 2], 2, 1) := by with_unfolding_all decide

/-- The model agrees with the unit test `testpammedsil_simple2`. -/
theorem rust_test_simple2_agreement :
    (fun r => (r.loss, r.assi, r.med, r.iter, r.swaps)) (pammedsil_swap mat5 [0, 1] 10) =
      (317/360, [0, 0, 0, 1, 1], [0, 4], 2, 1) := by with_unfolding_all decide

/-! Claim C6. -/

/-- C6: for all non-negative inputs `a` and `b`, the distance-ratio loss
primitive `_loss` returns `a / b`, except it returns exactly zero when `a` is
zero or `b` is zero; in particular it never divides by zero and an object
coincident with its medoid contributes 0 (the result is moreover always
non-negative, never an error value). -/
theorem loss_primitive_contract (a b : ℚ) (ha : 0 ≤ a) (hb : 0 ≤ b) :
    (a ≠ 0 ∧ b ≠ 0 → _loss a b = a / b) ∧
    ((a = 0 ∨ b = 0) → _loss a b = 0) ∧
    0 ≤ _loss a b := by
  refine ⟨fun h => ?_, fun h => ?_, ?_⟩
  · unfold _loss
    rw [if_neg (not_or.mpr ⟨h.1, h.2⟩)]
  · unfold _loss
    rw [if_pos h]
  · unfold _loss
    split
    · exact le_refl 0
    · exact div_nonneg ha hb

/-- Witness for C6's theorem at the concrete input (3, 4). -/
theorem loss_primitive_contract_witness :
    (((3 : ℚ) ≠ 0 ∧ (4 : ℚ) ≠ 0 → _loss 3 4 = 3 / 4) ∧
     (((3 : ℚ) = 0 ∨ (4 : ℚ) = 0) → _loss 3 4 = 0) ∧
     0 ≤ _loss 3 4) :=
  loss_primitive_contract 3 4 (by norm_num) (by norm_num)

/-! Claim C10. -/

/-- C10: with iteration cap 0 and k ≥ 2 medoids, the SWAP driver executes no
scan: it returns iteration count 0 and swap count 0, leaves the medoid list
and the records unchanged, and reports the assignment derived from the given
records together with the loss `1 - loss / n` computed from the given (initial)
loss accumulator. -/
theorem optimize_zero_maxiter_noop (mat : DissMatrix) (med : List ℕ) (data : List Reco)
    (loss : ℚ) (hk : 2 ≤ med.length) :
    pammedsil_optimize mat med data 0 loss =
      ⟨1 - loss / (mat.n : ℚ), data.map (fun x => x.near.i), 0, 0, med, data⟩ := by
  have h1 : ¬ med.length = 1 := by omega
  simp [pammedsil_optimize, pammedsil_optimize_gen, optLoop, h1]

/-- Witness for C10's theorem at a concrete input. -/
theorem optimize_zero_maxiter_noop_witness :
    pammedsil_optimize mat2 [0, 1] [] 0 0 =
      ⟨1 - 0 / (mat2.n : ℚ), ([] : List Reco).map (fun x => x.near.i), 0, 0, [0, 1], []⟩ :=
  optimize_zero_maxiter_noop mat2 [0, 1] [] 0 (by norm_num)

/-! Claim C4. -/

/-- C4: on the matrix `mat3` (d(0,1)=5, d(0,2)=3, d(1,2)=1) with k = 2, BUILD
first picks medoid 2 and then selects object 1 at the second step, although
the non-medoid object 0 has the strictly smaller (better) marginal-loss sum
(−3 < −1): the candidate scan of the second step starts at index 1
(`.skip(1)`), so object 0 is never evaluated. -/
theorem build_step_skips_object_zero :
    ( pammedsil_build_initialize mat3 2).1 = [2, 1] ∧
    buildFirst mat3 2 = (4, 2) ∧
    buildCandSum mat3 (buildInitData mat3 2) 0 = -3 ∧
    buildCandSum mat3 (buildInitData mat3 2) 1 = -1 ∧
    buildCandSum mat3 (buildInitData mat3 2) 0 < buildCandSum mat3 (buildInitData mat3 2) 1 := by
  with_unfolding_all decide

/-! Claim C3. -/

/-- C3 counterexample: on the k == 1 path the returned loss is *not*
`1 - accumulator / n`.  For `mat2` (two objects at distance 2) and k = 1,
`pammedsil` returns loss 2 (the total-distance loss of the single-medoid
recomputation), while the records' ratio accumulator is 0, so the claimed
transform would give `1 - 0/2 = 1 ≠ 2`. -/
theorem k1_path_loss_untransformed_cex :
    (pammedsil mat2 1 10).map
        (fun r => (r.loss, r.assi, r.med, r.iter, r.swaps, sumRatios r.data)) =
      some (2, [0, 0], [0], 1, 0, 0) ∧
    (2 : ℚ) ≠ 1 - 0 / (2 : ℚ) := by
  with_unfolding_all decide

/-- C3 amended: the transform `loss_out = 1 - loss_accumulator / n` is applied
on the SWAP-loop return path (the k ≥ 2 case, via either entry point), while
the k == 1 short-circuit returns the loss of the single-medoid recomputation
untransformed. -/
theorem final_loss_transform_paths (f : SwapPrim) (mat : DissMatrix) (med : List ℕ)
    (data : List Reco) (maxiter : ℕ) (loss : ℚ) :
    (2 ≤ med.length →
      (pammedsil_optimize_gen f mat med data maxiter loss).loss =
        1 - (optLoop f mat maxiter ⟨med, data, loss, 0, 0⟩).loss / (mat.n : ℚ)) ∧
    (med.length = 1 →
      (pammedsil_optimize_gen f mat med data maxiter loss).loss =
        (choose_medoid_within_partition mat (List.replicate mat.n 0) med 0).2.1) := by
  constructor
  · intro h
    have h1 : ¬ med.length = 1 := by omega
    simp [pammedsil_optimize_gen, h1]
  · intro h
    simp [pammedsil_optimize_gen, h]

/-- Witness for C3's amended theorem at concrete inputs (both branches). -/
theorem final_loss_transform_paths_witness :
    ((pammedsil_optimize_gen do_swap mat5 [0, 1, 2] (initial_assignment mat5 [0, 1, 2]).2 10
        (initial_assignment mat5 [0, 1, 2]).1).loss =
      1 - (optLoop do_swap mat5 10
            ⟨[0, 1, 2], (initial_assignment mat5 [0, 1, 2]).2,
              (initial_assignment mat5 [0, 1, 2]).1, 0, 0⟩).loss / (mat5.n : ℚ)) ∧
    ((pammedsil_optimize_gen do_swap mat2 [0] [] 10 0).loss =
      (choose_medoid_within_partition mat2 (List.replicate mat2.n 0) [0] 0).2.1) :=
  ⟨(final_loss_transform_paths do_swap mat5 [0, 1, 2]
      (initial_assignment mat5 [0, 1, 2]).2 10 (initial_assignment mat5 [0, 1, 2]).1).1
      (by norm_num),
   (final_loss_transform_paths do_swap mat2 [0] [] 10 0).2 rfl⟩

/-! Claim C5. -/

/-- C5 counterexample: on the k == 2 state reached from medoids [0, 1] on
`matC` (records' third slots unassigned, sentinel distance 0), the two swap
evaluators disagree for the non-medoid object 2: the general evaluator reads
the sentinel third distance 0 in its fallback comparisons and returns
(1/5, 0), while the k2 variant returns (0, usize::MAX) — not the same pair. -/
theorem k2_general_evaluators_differ_cex :
    find_best_swap_pammedsil matC [0, 1] (initial_assignment matC [0, 1]).2 2 = (1/5, 0) ∧
    find_best_swap_pammedsil_k2 matC [0, 1] (initial_assignment matC [0, 1]).2 2 =
      (0, usizeMAX) ∧
    ((1/5 : ℚ), (0 : ℕ)) ≠ ((0 : ℚ), usizeMAX) := by
  with_unfolding_all decide

/-- The per-object contributions of the two evaluators agree once the record's
third distance is replaced by a bound larger than the distance to `j`. -/
theorem deltaK2_eq_deltaGeneral_capped (mat : DissMatrix) (m j o : ℕ) (r : Reco) (B : ℚ)
    (hB : mat.get o j < B) :
    deltaK2 mat m j o r = deltaGeneral mat m j o ⟨r.near, r.seco, ⟨r.third.i, B⟩⟩ := by
  unfold deltaK2 deltaGeneral
  by_cases h1 : r.near.i = m
  · by_cases h2 : mat.get o j < r.seco.d
    · simp [h1, h2]
    · simp [h1, h2, hB]
  · by_cases h3 : r.seco.i = m
    · by_cases h2 : mat.get o j < r.near.d
      · simp [h1, h3, h2]
      · simp [h1, h3, h2, hB]
    · simp [h1, h3]

/-- The inner accumulations of the two evaluators agree on third-capped
records. -/
theorem accAux_capped (mat : DissMatrix) (m j : ℕ) (B : ℚ) (hB : ∀ o, mat.get o j < B) :
    ∀ (ds : List Reco) (o : ℕ) (acc : ℚ),
      accAux (deltaK2 mat m j) o j ds acc =
        accAux (deltaGeneral mat m j) o j (capThird B ds) acc := by
  intro ds
  induction ds with
  | nil => intro o acc; rfl
  | cons r t ih =>
    intro o acc
    show accAux (deltaK2 mat m j) (o + 1) j t
          (if o = j then acc else acc + deltaK2 mat m j o r) =
        accAux (deltaGeneral mat m j) (o + 1) j (capThird B t)
          (if o = j then acc else acc + deltaGeneral mat m j o ⟨r.near, r.seco, ⟨r.third.i, B⟩⟩)
    rw [deltaK2_eq_deltaGeneral_capped mat m j o r B (hB o)]
    exact ih (o + 1) _

/-- C5 amended: the k == 2 evaluator is not output-equal to the general
evaluator on the raw k == 2 state (see the counterexample); it returns the
same (change, slot) pair as the general evaluator applied to the state with
every record's third distance replaced by any bound `B` exceeding all
distances to `j` — i.e. with the unassigned third slot genuinely treated as
infinitely far. -/
theorem k2_evaluator_equals_general_with_far_third (mat : DissMatrix) (med : List ℕ)
    (data : List Reco) (j : ℕ) (B : ℚ) (hB : ∀ o, mat.get o j < B) :
    find_best_swap_pammedsil_k2 mat med data j =
      find_best_swap_pammedsil mat med (capThird B data) j := by
  unfold find_best_swap_pammedsil_k2 find_best_swap_pammedsil
  have hlen : (capThird B data).length = data.length := by simp [capThird]
  have hnear : ((capThird B data).getD j default).near = (data.getD j default).near := by
    by_cases hj : j < data.length
    · rw [List.getD_eq_getElem _ _ (hlen ▸ hj), List.getD_eq_getElem _ _ hj]
      simp [capThird]
    · rw [List.getD_eq_default _ _ (by omega), List.getD_eq_default _ _ (by omega)]
  have hseco : ((capThird B data).getD j default).seco = (data.getD j default).seco := by
    by_cases hj : j < data.length
    · rw [List.getD_eq_getElem _ _ (hlen ▸ hj), List.getD_eq_getElem _ _ hj]
      simp [capThird]
    · rw [List.getD_eq_default _ _ (by omega), List.getD_eq_default _ _ (by omega)]
  dsimp only
  rw [hnear, hseco]
  exact List.foldl_ext _ _ _ fun best m _ => by
    rw [accAux_capped mat m j B hB data 0]

/-- Witness for C5's amended theorem at a concrete input. -/
theorem k2_evaluator_equals_general_with_far_third_witness :
    find_best_swap_pammedsil_k2 matZ [0, 1] (initial_assignment matZ [0, 1]).2 1 =
      find_best_swap_pammedsil matZ [0, 1] (capThird 1 (initial_assignment matZ [0, 1]).2) 1 :=
  k2_evaluator_equals_general_with_far_third matZ [0, 1] (initial_assignment matZ [0, 1]).2 1 1
    (fun o => by norm_num [matZ])

/-! Claim C9. -/

/-- C9 counterexample: `pammedsil` refuses (panics on) an input that satisfies
the claim's preconditions: for a square matrix with n = u32::MAX rows and
k = u32::MAX (so 0 < k ≤ n ≤ u32::MAX), the `assert!(k > 0 && k < u32::MAX)`
check fails and the call aborts with no result. -/
theorem precondition_check_extra_panic_cex :
    pammedsil matBig u32MAX 0 = none ∧
    (matBig.isSquare = true ∧ 0 < u32MAX ∧ u32MAX ≤ matBig.n ∧ matBig.n ≤ u32MAX) := by
  with_unfolding_all decide

/-- C9 amended: `pammedsil` fails fatally (returns no result) exactly when the
matrix is not square, n > u32::MAX, k = 0, k ≥ u32::MAX, or k > n — i.e. the
claim's condition plus the extra `k < u32::MAX` assertion (`pammedsil_swap`
itself performs no checks; its panics live in the out-of-src primitives). -/
theorem pammedsil_precondition_check_iff (f : SwapPrim) (mat : DissMatrix) (k maxiter : ℕ) :
    pammedsil_gen f mat k maxiter = none ↔
      (¬ mat.isSquare = true ∨ mat.n > u32MAX ∨ k = 0 ∨ k ≥ u32MAX ∨ k > mat.n) := by
  by_cases h : (mat.isSquare = true ∧ mat.n ≤ u32MAX ∧ (0 < k ∧ k < u32MAX) ∧ k ≤ mat.n)
  · rw [pammedsil_gen, if_pos h]
    obtain ⟨h1, h2, ⟨h3, h4⟩, h5⟩ := h
    constructor
    · intro hc
      exact absurd hc (by simp)
    · rintro (hc | hc | hc | hc | hc)
      · exact absurd h1 hc
      · omega
      · omega
      · omega
      · omega
  · rw [pammedsil_gen, if_neg h]
    refine ⟨fun _ => ?_, fun _ => rfl⟩
    by_cases hsq : mat.isSquare = true
    · simp only [hsq, true_and] at h
      right
      omega
    · exact Or.inl hsq

/-! Claim C8. -/

/-- If every scanned candidate's marginal sum is non-negative, the candidate
scan of a later BUILD step leaves the running best at its initial value
`(L::zero(), k)`. -/
theorem buildScan_stays_zero (mat : DissMatrix) (data : List Reco) (k : ℕ)
    (h : ∀ i, i < mat.n → 1 ≤ i → 0 ≤ buildCandSum mat data i) :
    buildScan mat data k = (0, k) := by
  unfold buildScan
  have main : ∀ (l : List ℕ), (∀ i ∈ l, 1 ≤ i ∧ i < mat.n) →
      l.foldl
        (fun best i =>
          let sum := buildCandSum mat data i
          if i = 0 ∨ sum < best.1 then (sum, i) else best)
        (0, k) = (0, k) := by
    intro l
    induction l with
    | nil => intro _; rfl
    | cons a t ih =>
      intro hmem
      obtain ⟨ha1, ha2⟩ := hmem a (List.mem_cons_self a t)
      rw [List.foldl_cons]
      dsimp only
      rw [if_neg ?_]
      · exact ih fun i hi => hmem i (List.mem_cons_of_mem a hi)
      · rintro (hc | hc)
        · omega
        · exact absurd hc (not_lt.mpr (h a ha2 ha1))
  apply main
  intro i hi
  rw [List.mem_range'_1] at hi
  omega

/-- C8: if at some BUILD step no scanned candidate yields a strictly negative
(improving) marginal sum, the BUILD loop stops at that step, appending no
further medoid and leaving records and loss untouched; consequently (second
part) when this happens at the first of the later steps with requested
k ≥ 2, BUILD returns a medoid list shorter than k. -/
theorem build_stops_early_without_improvement :
    (∀ (mat : DissMatrix) (k rem : ℕ) (meds : List ℕ) (data : List Reco) (loss : ℚ),
      (∀ i, i < mat.n → 1 ≤ i → 0 ≤ buildCandSum mat data i) →
      buildAux mat k rem meds data loss = (meds, data, loss)) ∧
    (∀ (mat : DissMatrix) (k : ℕ), 2 ≤ k →
      (∀ i, i < mat.n → 1 ≤ i →
        0 ≤ buildCandSum mat (buildInitData mat (buildFirst mat k).2) i) →
      ( pammedsil_build_initialize mat k).1.length < k) := by
  have main : ∀ (mat : DissMatrix) (k rem : ℕ) (meds : List ℕ) (data : List Reco) (loss : ℚ),
      (∀ i, i < mat.n → 1 ≤ i → 0 ≤ buildCandSum mat data i) →
      buildAux mat k rem meds data loss = (meds, data, loss) := by
    intro mat k rem meds data loss h
    cases rem with
    | zero => rfl
    | succ r =>
      unfold buildAux
      rw [buildScan_stays_zero mat data k h]
      norm_num
  refine ⟨main, fun mat k hk h => ?_⟩
  unfold pammedsil_build_initialize
  rw [main mat k (k - 1) _ _ _ h]
  simpa using hk

/-- Witness for C8's theorem on the all-duplicates matrix `matZ` with k = 2
(BUILD finds no improving second medoid and stops with one medoid). -/
theorem build_stops_early_without_improvement_witness :
    buildAux matZ 2 1 [0] (buildInitData matZ 0) 0 = ([0], buildInitData matZ 0, 0) ∧
    ( pammedsil_build_initialize matZ 2).1.length < 2 :=
  ⟨build_stops_early_without_improvement.1 matZ 2 1 [0] (buildInitData matZ 0) 0
      (by with_unfolding_all decide),
   build_stops_early_without_improvement.2 matZ 2 (by norm_num)
      (by with_unfolding_all decide)⟩

/-! Claim C7. -/

/-- One unfolding of the scan: scanning the first m+1 objects is scanning the
first m and then applying one scan step to object m. -/
theorem scanAux_succ (mat : DissMatrix) (med : List ℕ) (data : List Reco) (m : ℕ) :
    scanAux mat med data (m + 1) = scanStep mat med data (scanAux mat med data m) m := by
  unfold scanAux
  rw [List.range_succ, List.foldl_append, List.foldl_cons, List.foldl_nil]

/-- Invariant of the scan over the first m objects: the tracked change is
non-negative, bounds every evaluated (non-skipped) object's change, and when
strictly positive belongs to the first evaluated object attaining it (earlier
evaluated objects have strictly smaller change — first-seen tie-break). -/
theorem scanAux_spec (mat : DissMatrix) (med : List ℕ) (data : List Reco) : ∀ m : ℕ,
    0 ≤ (scanAux mat med data m).1 ∧
    (∀ j, j < m → ¬ scanSkips med data j →
      (evalSwap mat med data j).1 ≤ (scanAux mat med data m).1) ∧
    (0 < (scanAux mat med data m).1 →
      (scanAux mat med data m).2.2 < m ∧
      ¬ scanSkips med data (scanAux mat med data m).2.2 ∧
      evalSwap mat med data (scanAux mat med data m).2.2 =
        ((scanAux mat med data m).1, (scanAux mat med data m).2.1) ∧
      ∀ j, j < (scanAux mat med data m).2.2 → ¬ scanSkips med data j →
        (evalSwap mat med data j).1 < (scanAux mat med data m).1) := by
  intro m
  induction m with
  | zero =>
    refine ⟨le_refl 0, fun j hj => absurd hj (by omega), fun hpos => absurd hpos ?_⟩
    simp [scanAux]
  | succ m ih =>
    rw [scanAux_succ]
    obtain ⟨ih0, ih1, ih2⟩ := ih
    unfold scanStep
    by_cases hskip : scanSkips med data m
    · rw [if_pos hskip]
      refine ⟨ih0, fun j hj hns => ?_, fun hpos => ?_⟩
      · rcases Nat.lt_succ_iff_lt_or_eq.mp hj with h | rfl
        · exact ih1 j h hns
        · exact absurd hskip hns
      · obtain ⟨w1, w2, w3, w4⟩ := ih2 hpos
        exact ⟨Nat.lt_succ_of_lt w1, w2, w3, w4⟩
    · rw [if_neg hskip]
      dsimp only
      by_cases hle : (evalSwap mat med data m).1 ≤ (scanAux mat med data m).1
      · rw [if_pos hle]
        refine ⟨ih0, fun j hj hns => ?_, fun hpos => ?_⟩
        · rcases Nat.lt_succ_iff_lt_or_eq.mp hj with h | rfl
          · exact ih1 j h hns
          · exact hle
        · obtain ⟨w1, w2, w3, w4⟩ := ih2 hpos
          exact ⟨Nat.lt_succ_of_lt w1, w2, w3, w4⟩
      · rw [if_neg hle]
        push_neg at hle
        refine ⟨le_of_lt (lt_of_le_of_lt ih0 hle), fun j hj hns => ?_, fun _ => ?_⟩
        · rcases Nat.lt_succ_iff_lt_or_eq.mp hj with h | rfl
          · exact le_of_lt (lt_of_le_of_lt (ih1 j h hns) hle)
          · exact le_refl _
        · exact ⟨Nat.lt_succ_of_le (le_refl m), hskip, rfl,
            fun j hj hns => lt_of_le_of_lt (ih1 j hj hns) hle⟩

/-- C7: given well-formed state (each medoid's record routes the scan's skip
test back to itself, and every record's nearest slot index is a valid slot),
the SWAP scan skips exactly the objects occupying a medoid slot, its tracked
change bounds every evaluated object's best change, and a strictly positive
result identifies the first evaluated object attaining it (a later candidate
replaces the best only on a strictly greater change). -/
theorem scan_tracks_first_seen_best_nonmedoid (mat : DissMatrix) (med : List ℕ)
    (data : List Reco)
    (hself : ∀ s, s < med.length → scanSkips med data (med.getD s 0))
    (hrange : ∀ j, j < mat.n → (data.getD j default).near.i < med.length) :
    (∀ j, j < mat.n → (scanSkips med data j ↔ j ∈ med)) ∧
    (∀ j, j < mat.n → ¬ scanSkips med data j →
      (evalSwap mat med data j).1 ≤ (scanBest mat med data).1) ∧
    (0 < (scanBest mat med data).1 →
      (scanBest mat med data).2.2 < mat.n ∧
      ¬ scanSkips med data (scanBest mat med data).2.2 ∧
      evalSwap mat med data (scanBest mat med data).2.2 =
        ((scanBest mat med data).1, (scanBest mat med data).2.1) ∧
      ∀ j, j < (scanBest mat med data).2.2 → ¬ scanSkips med data j →
        (evalSwap mat med data j).1 < (scanBest mat med data).1) := by
  obtain ⟨h0, h1, h2⟩ := scanAux_spec mat med data mat.n
  refine ⟨fun j hj => ⟨fun hs => ?_, fun hmem => ?_⟩, h1, h2⟩
  · rw [hs]
    have hi := hrange j hj
    rw [List.getD_eq_getElem _ _ hi]
    exact List.getElem_mem _
  · obtain ⟨s, hs, hjs⟩ := List.mem_iff_getElem.mp hmem
    have := hself s hs
    rw [List.getD_eq_getElem _ _ hs, hjs] at this
    exact this

/-- Witness for C7's theorem on the unit-test state (medoids [0,1,2] on
`mat5`). -/
theorem scan_tracks_first_seen_best_nonmedoid_witness :
    (∀ j, j < mat5.n →
      (scanSkips [0, 1, 2] (initial_assignment mat5 [0, 1, 2]).2 j ↔ j ∈ [0, 1, 2])) ∧
    (∀ j, j < mat5.n → ¬ scanSkips [0, 1, 2] (initial_assignment mat5 [0, 1, 2]).2 j →
      (evalSwap mat5 [0, 1, 2] (initial_assignment mat5 [0, 1, 2]).2 j).1 ≤
        (scanBest mat5 [0, 1, 2] (initial_assignment mat5 [0, 1, 2]).2).1) ∧
    (0 < (scanBest mat5 [0, 1, 2] (initial_assignment mat5 [0, 1, 2]).2).1 →
      (scanBest mat5 [0, 1, 2] (initial_assignment mat5 [0, 1, 2]).2).2.2 < mat5.n ∧
      ¬ scanSkips [0, 1, 2] (initial_assignment mat5 [0, 1, 2]).2
          (scanBest mat5 [0, 1, 2] (initial_assignment mat5 [0, 1, 2]).2).2.2 ∧
      evalSwap mat5 [0, 1, 2] (initial_assignment mat5 [0, 1, 2]).2
          (scanBest mat5 [0, 1, 2] (initial_assignment mat5 [0, 1, 2]).2).2.2 =
        ((scanBest mat5 [0, 1, 2] (initial_assignment mat5 [0, 1, 2]).2).1,
         (scanBest mat5 [0, 1, 2] (initial_assignment mat5 [0, 1, 2]).2).2.1) ∧
      ∀ j, j < (scanBest mat5 [0, 1, 2] (initial_assignment mat5 [0, 1, 2]).2).2.2 →
        ¬ scanSkips [0, 1, 2] (initial_assignment mat5 [0, 1, 2]).2 j →
        (evalSwap mat5 [0, 1, 2] (initial_assignment mat5 [0, 1, 2]).2 j).1 <
          (scanBest mat5 [0, 1, 2] (initial_assignment mat5 [0, 1, 2]).2).1) :=
  scan_tracks_first_seen_best_nonmedoid mat5 [0, 1, 2] (initial_assignment mat5 [0, 1, 2]).2
    (by with_unfolding_all decide) (by with_unfolding_all decide)

/-! Claim C2. -/

/-- C2 amended: whenever the instability guard trips — the scan found a
strictly positive change but the swap primitive's reported new loss is not
strictly below the current loss — the driver halts immediately, returning the
*post-swap* medoid list and records (hence a post-swap assignment) together
with the *pre-swap* loss accumulator, and counting the tripped swap. -/
theorem guard_trip_returns_preswap_loss_postswap_state (f : SwapPrim) (mat : DissMatrix)
    (rem : ℕ) (s : OptState)
    (hpos : 0 < (scanBest mat s.med s.data).1)
    (hguard : s.loss ≤
      (f mat s.med s.data (scanBest mat s.med s.data).2.1
        (scanBest mat s.med s.data).2.2).2.2) :
    optLoop f mat (rem + 1) s =
      ⟨(f mat s.med s.data (scanBest mat s.med s.data).2.1
          (scanBest mat s.med s.data).2.2).1,
       (f mat s.med s.data (scanBest mat s.med s.data).2.1
          (scanBest mat s.med s.data).2.2).2.1,
       s.loss, s.iter + 1, s.swaps + 1⟩ := by
  unfold optLoop
  dsimp only
  rw [if_pos hpos, if_pos hguard]

/-- Witness for C2's amended theorem on the drifting run from medoids
[0, 1, 2] on `mat5`. -/
theorem guard_trip_returns_preswap_loss_postswap_state_witness :
    optLoop do_swap_drift2 mat5 (9 + 1) cexState =
      ⟨(do_swap_drift2 mat5 cexState.med cexState.data
          (scanBest mat5 cexState.med cexState.data).2.1
          (scanBest mat5 cexState.med cexState.data).2.2).1,
       (do_swap_drift2 mat5 cexState.med cexState.data
          (scanBest mat5 cexState.med cexState.data).2.1
          (scanBest mat5 cexState.med cexState.data).2.2).2.1,
       cexState.loss, cexState.iter + 1, cexState.swaps + 1⟩ :=
  guard_trip_returns_preswap_loss_postswap_state do_swap_drift2 mat5 9 cexState
    (by with_unfolding_all decide) (by with_unfolding_all decide)

/-- C2 counterexample: when the guard trips, the returned values do not all
describe one medoid configuration.  On `mat5` from medoids [0, 1, 2] with a
conforming-but-drifting swap primitive, the driver returns loss 133/200
(= 1 − (67/40)/5, the transform of the *pre-swap* accumulator) while the
returned medoid list [0, 3, 2] and assignment [0, 0, 2, 1, 1] describe the
post-swap configuration, whose accumulator is 10/21 and whose consistent
reported loss would be 1 − (10/21)/5 = 19/21 ≠ 133/200. -/
theorem guard_trip_mixed_state_cex :
    (fun r => (r.loss, r.assi, r.med, r.iter, r.swaps))
        (pammedsil_swap_gen do_swap_drift2 mat5 [0, 1, 2] 10) =
      (133/200, [0, 0, 2, 1, 1], [0, 3, 2], 1, 1) ∧
    (initial_assignment mat5 [0, 3, 2]).1 = 10/21 ∧
    (initial_assignment mat5 [0, 3, 2]).2.map (fun r => r.near.i) = [0, 0, 2, 1, 1] ∧
    (133 : ℚ)/200 ≠ 1 - (10/21) / 5 := by
  with_unfolding_all decide

/-! Claim C1. -/

/-- The driver's swap counter counts exactly the entries of the loss trace
(the reported losses of the counted swaps). -/
theorem optLoop_swaps_eq (f : SwapPrim) (mat : DissMatrix) :
    ∀ (rem : ℕ) (s : OptState),
      (optLoop f mat rem s).swaps =
        s.swaps + (lossTrace f mat rem s.med s.data s.loss).length := by
  intro rem
  induction rem with
  | zero => intro s; rfl
  | succ r ih =>
    intro s
    unfold optLoop lossTrace
    dsimp only
    by_cases h1 : 0 < (scanBest mat s.med s.data).1
    · rw [if_pos h1, if_pos h1]
      by_cases h2 : s.loss ≤
          (f mat s.med s.data (scanBest mat s.med s.data).2.1
            (scanBest mat s.med s.data).2.2).2.2
      · rw [if_pos h2, if_pos h2]
        rfl
      · rw [if_neg h2, if_neg h2]
        rw [ih]
        simp only [List.length_cons]
        omega
    · rw [if_neg h1, if_neg h1]
      rfl

/-- Along any run of the driver loop, the current loss followed by the
reported losses of all counted swaps but the last is strictly decreasing. -/
theorem lossTrace_chain (f : SwapPrim) (mat : DissMatrix) :
    ∀ (rem : ℕ) (med : List ℕ) (data : List Reco) (loss : ℚ),
      List.Chain' (fun a b => b < a)
        ((loss :: lossTrace f mat rem med data loss).dropLast) := by
  intro rem
  induction rem with
  | zero => intro med data loss; simp [lossTrace]
  | succ r ih =>
    intro med data loss
    unfold lossTrace
    dsimp only
    by_cases h1 : 0 < (scanBest mat med data).1
    · rw [if_pos h1]
      by_cases h2 : loss ≤
          (f mat med data (scanBest mat med data).2.1 (scanBest mat med data).2.2).2.2
      · rw [if_pos h2]
        simp
      · rw [if_neg h2]
        have hlt := not_le.mp h2
        have iht := ih (f mat med data (scanBest mat med data).2.1
            (scanBest mat med data).2.2).1
          (f mat med data (scanBest mat med data).2.1 (scanBest mat med data).2.2).2.1
          (f mat med data (scanBest mat med data).2.1 (scanBest mat med data).2.2).2.2
        cases htr : lossTrace f mat r
            (f mat med data (scanBest mat med data).2.1 (scanBest mat med data).2.2).1
            (f mat med data (scanBest mat med data).2.1 (scanBest mat med data).2.2).2.1
            (f mat med data (scanBest mat med data).2.1 (scanBest mat med data).2.2).2.2 with
        | nil => simp
        | cons x t =>
          rw [htr] at iht
          rw [List.dropLast_cons₂, List.dropLast_cons₂]
          rw [List.dropLast_cons₂] at iht
          exact List.chain'_cons.mpr ⟨hlt, iht⟩
    · rw [if_neg h1]
      simp

/-- C1 amended: for every run of the SWAP driver with k ≥ 2, every counted
swap *except possibly the last* strictly decreases the loss: the returned swap
count equals the length of the run's loss trace, and the initial loss followed
by all reported post-swap losses but the last is strictly decreasing (a final
counted swap may fail to decrease the loss, in which case the instability
guard halts the driver with that swap already counted and applied). -/
theorem counted_swaps_decrease_loss_except_last (f : SwapPrim) (mat : DissMatrix)
    (med : List ℕ) (data : List Reco) (maxiter : ℕ) (loss : ℚ) (hk : 2 ≤ med.length) :
    (pammedsil_optimize_gen f mat med data maxiter loss).swaps =
      (lossTrace f mat maxiter med data loss).length ∧
    List.Chain' (fun a b => b < a)
      ((loss :: lossTrace f mat maxiter med data loss).dropLast) := by
  constructor
  · have h1 : ¬ med.length = 1 := by omega
    have h := optLoop_swaps_eq f mat maxiter ⟨med, data, loss, 0, 0⟩
    simp only [pammedsil_optimize_gen, h1, if_false]
    simpa using h
  · exact lossTrace_chain f mat maxiter med data loss

/-- Witness for C1's amended theorem on the drifting run from medoids
[0, 1, 2] on `mat5`. -/
theorem counted_swaps_decrease_loss_except_last_witness :
    ((pammedsil_optimize_gen do_swap_drift2 mat5 [0, 1, 2]
        (initial_assignment mat5 [0, 1, 2]).2 10 (initial_assignment mat5 [0, 1, 2]).1).swaps =
      (lossTrace do_swap_drift2 mat5 10 [0, 1, 2] (initial_assignment mat5 [0, 1, 2]).2
        (initial_assignment mat5 [0, 1, 2]).1).length) ∧
    List.Chain' (fun a b => b < a)
      (((initial_assignment mat5 [0, 1, 2]).1 ::
        lossTrace do_swap_drift2 mat5 10 [0, 1, 2] (initial_assignment mat5 [0, 1, 2]).2
          (initial_assignment mat5 [0, 1, 2]).1).dropLast) :=
  counted_swaps_decrease_loss_except_last do_swap_drift2 mat5 [0, 1, 2]
    (initial_assignment mat5 [0, 1, 2]).2 10 (initial_assignment mat5 [0, 1, 2]).1
    (by norm_num)

/-- C1 counterexample: a run of the SWAP driver (reached via the
`pammedsil_swap` path, with an interface-conforming swap primitive whose
reported loss has drifted) counts one swap whose freshly recomputed (reported)
loss 52/21 is *not* strictly less than the loss 67/40 before it. -/
theorem swap_count_includes_nonimproving_swap_cex :
    (pammedsil_swap_gen do_swap_drift2 mat5 [0, 1, 2] 10).swaps = 1 ∧
    lossTrace do_swap_drift2 mat5 10 [0, 1, 2] (initial_assignment mat5 [0, 1, 2]).2
      (initial_assignment mat5 [0, 1, 2]).1 = [52/21] ∧
    (initial_assignment mat5 [0, 1, 2]).1 = 67/40 ∧
    ¬ ((52 : ℚ)/21 < 67/40) := by
  with_unfolding_all decide
